import Mathlib

/-!
Verification of the DepGraph dependency-analysis pipeline.

The repository splits into:
  * `src/depgraph/config.py` and `src/depgraph/cli.py` — two identical `Config`
    classes (both present in the snapshot and embedded below);
  * `src/depgraph/rendering/visualizers.py` — the Graphviz visualizer (present,
    embedded below);
  * `src/depgraph/parsing/{project,ast_parser}.py` and
    `src/depgraph/graph/{dependency_graph,module_node}.py` — the Scanner,
    Import Extractor, Module Resolver, Dependency Graph and Builder.  These
    files are not in the snapshot (only `__init__.py` re-exports them and the
    tests exercise them), so they are modelled from the spec, pinned where
    possible by the repository's own tests.
-/

/-- Modelled from the spec: classification enum of `module_node.py`
({LOCAL, THIRD_PARTY, STDLIB}), re-exported as `ModuleType`. -/
inductive ModuleType where
  | LOCAL
  | THIRD_PARTY
  | STDLIB
deriving DecidableEq, Repr

/-- Modelled from the spec: one vertex of the Dependency Graph
(`module_node.py`).  In the Python code `dependencies` is a list of shared
`ModuleNode` references; since names are unique keys of the graph mapping,
dependencies are embedded as the list of target names. -/
structure ModuleNode where
  name : String
  module_type : ModuleType
  dependencies : List String
deriving DecidableEq, Repr

/-- Modelled from the spec: the graph is a mapping from canonical module name
to `ModuleNode`, keys unique, insertion order preserved (`dependency_graph.py`).
Embedded as an insertion-ordered list of nodes keyed by `ModuleNode.name`. -/
structure DependencyGraph where
  nodes : List ModuleNode
deriving DecidableEq, Repr

/-- Lookup of `graph.nodes[name]`. -/
def getNode (g : DependencyGraph) (name : String) : Option ModuleNode :=
  g.nodes.find? (fun n => n.name = name)

/-- The key set of the graph mapping (`name in graph.nodes`). -/
def nodeNames (g : DependencyGraph) : List String :=
  g.nodes.map (fun n => n.name)

/-- Modelled from the spec: node creation in the Builder — a node is created
the first time a name is encountered; a second request for the same name
reuses the existing node (classification assigned at creation, never
changed). -/
def addNode (g : DependencyGraph) (name : String) (mt : ModuleType) :
    DependencyGraph :=
  if name ∈ nodeNames g then g
  else ⟨g.nodes ++ [⟨name, mt, []⟩]⟩

/-- Modelled from the spec: recording a directed edge from `src` to `tgt`
during the build pass; re-adding the same edge is idempotent (no duplicate
edges). -/
def addDependency (g : DependencyGraph) (src tgt : String) : DependencyGraph :=
  ⟨g.nodes.map (fun n =>
    if n.name = src then
      if tgt ∈ n.dependencies then n
      else { n with dependencies := n.dependencies ++ [tgt] }
    else n)⟩

/-- An import statement as parsed from a source file.  The Python Extractor
walks the file's `ast`; the parse step itself (Python's `ast` library) is the
external boundary of the embedding, so files are carried as lists of already
parsed statements.  `imp mod asname` is `import mod [as asname]`;
`impFrom mod lvl names` is `from <lvl dots><mod> import n1 [as a1], ...`
(with `mod = none` for the bare `from . import n` form). -/
inductive ImportStmt where
  | imp (mod : String) (asname : Option String)
  | impFrom (mod : Option String) (lvl : Nat) (names : List (String × Option String))
deriving DecidableEq, Repr

/-- Append a member name to an optional dotted module path. -/
def foldMember (mod : Option String) (n : String) : String :=
  match mod with
  | some m => m ++ "." ++ n
  | none => n

/-- A string of `lvl` leading dots encoding a relative level. -/
def dotsStr (lvl : Nat) : String :=
  String.mk (List.replicate lvl '.')

/-- Set insertion preserving first-insertion order (the Python extractor
returns a `set` of strings; membership is what the tests observe). -/
def insertUniq {α : Type} [DecidableEq α] (xs : List α) (x : α) : List α :=
  if x ∈ xs then xs else xs ++ [x]

/-- Modelled from the spec: references yielded for one statement by the
`depcycle` pipeline's Extractor (§4.2): every alias resolves back to the real
imported name; `from a.b import c [as x]` folds the member into the dotted
path, also for relative forms (`from ..u import v` → `..u.v`), which is the
behaviour `tests/test_dependency_graph.py` requires end to end; a star import
yields the module itself. -/
def stmtRefs : ImportStmt → List String
  | ImportStmt.imp mod _ => [mod]
  | ImportStmt.impFrom mod lvl names =>
      names.map (fun p =>
        if p.1 = "*" then dotsStr lvl ++ (mod.getD "")
        else dotsStr lvl ++ foldMember mod p.1)

/-- Modelled from the spec: `get_imports_from_file` of the `depcycle`
pipeline — the set of fully-qualified-as-written import strings of a file. -/
def get_imports_from_file (stmts : List ImportStmt) : List String :=
  stmts.foldl (fun acc s => (stmtRefs s).foldl insertUniq acc) []

/-- Modelled from the spec: references yielded for one statement by the
`depgraph` package's Extractor (`parsing/ast_parser.py`), as pinned by
`tests/test_ast_parser.py`: absolute imports behave as in §4.2 (aliases
resolved back, `from a.b import c as x` → `a.b.c`), but a relative
`from`-import yields the "current package" sentinel form — the level's dots
followed by the written module path only, the imported member names not
folded in (`from . import localmod` → `.`, `from .pkg import submod` →
`.pkg`). -/
def depgraphStmtRefs : ImportStmt → List String
  | ImportStmt.imp mod _ => [mod]
  | ImportStmt.impFrom mod lvl names =>
      if lvl = 0 then
        names.map (fun p =>
          if p.1 = "*" then mod.getD "" else foldMember mod p.1)
      else [dotsStr lvl ++ mod.getD ""]

/-- Modelled from the spec: `ASTParser.get_imports_from_file` of the
`depgraph` package, pinned by `tests/test_ast_parser.py`. -/
def depgraph_get_imports (stmts : List ImportStmt) : List String :=
  stmts.foldl (fun acc s => (depgraphStmtRefs s).foldl insertUniq acc) []

/-- Number of leading dots of a raw import string (its relative level). -/
def countDots : List Char → Nat
  | [] => 0
  | c :: cs => if c = '.' then countDots cs + 1 else 0

/-- Splitting a character list at a separator (the semantics of Python's
`str.split(sep)`: the empty string yields `[""]`). -/
def splitCharAux (sep : Char) : List Char → List Char → List (List Char)
  | [], cur => [cur.reverse]
  | c :: cs, cur =>
      if c = sep then cur.reverse :: splitCharAux sep cs []
      else splitCharAux sep cs (c :: cur)

/-- Splitting a string at a separator character (Python `str.split(sep)`). -/
def splitChar (sep : Char) (s : String) : List String :=
  (splitCharAux sep s.data []).map String.mk

/-- Joining components with a separator character (Python `sep.join`). -/
def joinWith (sep : Char) : List String → String
  | [] => ""
  | [x] => x
  | x :: y :: rest => x ++ String.mk [sep] ++ joinWith sep (y :: rest)

/-- Split a dotted path into components; the empty path has no components. -/
def splitDotted (s : String) : List String :=
  if s = "" then [] else splitChar '.' s

/-- Modelled from the spec: `resolve(raw_import, importing_module_name)` of
the Module Resolver (§4.3).  A raw string carries its relative level as
leading dots.  Level 0: the target is the raw path verbatim.  Level N ≥ 1:
strip the last N components from the importing module's dotted name, then
append the raw path if non-empty.  When stripping N components does not
leave a non-empty anchor the import escapes above the project root:
ResolutionError, the edge is dropped (`none`). -/
def resolve (raw : String) (importer : String) : Option String :=
  let lvl := countDots raw.data
  if lvl = 0 then some raw
  else
    let path := String.mk (raw.data.drop lvl)
    let comps := splitChar '.' importer
    if comps.length ≤ lvl then none
    else some (joinWith '.'
      (comps.take (comps.length - lvl) ++ splitDotted path))

/-- Drop a trailing `.py` extension from a path, when present. -/
def dropPyExt (s : String) : String :=
  if s.data.drop (s.data.length - 3) = ['.', 'p', 'y'] then
    String.mk (s.data.take (s.data.length - 3))
  else s

/-- Modelled from the spec: `module_name_for(path, project_root)` (§4.3) —
path separators become dots, the `.py` extension is stripped, and a package
marker `__init__.py` resolves to its containing directory's name. -/
def module_name_for (rel : String) : String :=
  let parts := splitChar '/' (dropPyExt rel)
  let parts := if parts.getLast? = some "__init__" then parts.dropLast else parts
  joinWith '.' parts

/-- Modelled from the spec: the standard-library module list the Resolver's
classification consults (a fixed name set; only the root component is
tested). -/
def stdlibModules : List String :=
  ["os", "sys", "json", "math", "re", "ast", "pathlib", "typing",
   "collections", "itertools", "functools", "logging", "argparse"]

/-- Root component of a dotted name. -/
def rootComponent (name : String) : String :=
  (splitChar '.' name).headD ""

/-- Modelled from the spec: classification (§4.3) — LOCAL when the name is a
discovered project module, STDLIB when its root component is a known
standard-library module, THIRD_PARTY otherwise. -/
def classify (localNames : List String) (name : String) : ModuleType :=
  if name ∈ localNames then ModuleType.LOCAL
  else if rootComponent name ∈ stdlibModules then ModuleType.STDLIB
  else ModuleType.THIRD_PARTY

/-- A project source file for the build pass: its path relative to the
project root, and its parsed import statements. -/
structure SourceFile where
  rel : String
  stmts : List ImportStmt
deriving DecidableEq, Repr

/-- Modelled from the spec: handling of one resolved import inside the build
pass — resolve the raw reference against the importing module; on
ResolutionError drop the edge, otherwise create (or reuse) the target node,
classified, and record the edge. -/
def processImport (localNames : List String) (srcName : String)
    (g : DependencyGraph) (raw : String) : DependencyGraph :=
  match resolve raw srcName with
  | none => g
  | some tgt =>
      addDependency (addNode g tgt (classify localNames tgt)) srcName tgt

/-- Modelled from the spec: handling of one file inside the build pass —
compute its module name, create (or reuse) its LOCAL node, then process each
extracted raw import. -/
def processFile (localNames : List String) (g : DependencyGraph)
    (f : SourceFile) : DependencyGraph :=
  let srcName := module_name_for f.rel
  (get_imports_from_file f.stmts).foldl
    (processImport localNames srcName)
    (addNode g srcName ModuleType.LOCAL)

/-- Modelled from the spec: `build(project, extractor, resolver, config)`
(§4.4) — one pass over the project's files in scanner order, populating the
graph. -/
def buildGraph (files : List SourceFile) : DependencyGraph :=
  let localNames := files.map (fun f => module_name_for f.rel)
  files.foldl (processFile localNames) ⟨[]⟩

/-- Index of the first occurrence of `a` in the list (Python
`list.index`). -/
def idxOfIn : List String → String → Nat
  | [], _ => 0
  | x :: xs, a => if x = a then 0 else idxOfIn xs a + 1

/-- Modelled from the spec: the recursive step of `find_cycles`'s
depth-first traversal (§4.4, `dependency_graph.py`): mark the node visited,
push it on the recursion stack, and walk its dependencies; an already
visited dependency that is on the stack is a back edge and yields the stack
slice from its first occurrence onward as a cycle; an unvisited dependency
is recursed into.  The stack entry is popped on return, so each dependency
is checked against the path that ends at the current node.  Recursion is
bounded by fuel; each recursive call visits a previously unvisited node, so
any fuel of at least the node count gives the exact traversal. -/
def dfsVisit (g : DependencyGraph) :
    Nat → String → List String → List String → List (List String) →
    List String × List (List String)
  | 0, _, visited, _, cycles => (visited, cycles)
  | Nat.succ fuel, name, visited, stack, cycles =>
      let visited1 := visited ++ [name]
      let stack1 := stack ++ [name]
      let deps := ((getNode g name).map ModuleNode.dependencies).getD []
      deps.foldl (fun acc dep =>
        if dep ∈ acc.1 then
          if dep ∈ stack1 then
            (acc.1, acc.2 ++ [stack1.drop (idxOfIn stack1 dep)])
          else acc
        else dfsVisit g fuel dep acc.1 stack1 acc.2) (visited1, cycles)

/-- Modelled from the spec: the outer loop of `find_cycles` — start a
depth-first traversal from every node not yet visited, in insertion
order. -/
def findCyclesRaw (g : DependencyGraph) : List (List String) :=
  (g.nodes.foldl (fun acc n =>
    if n.name ∈ acc.1 then acc
    else dfsVisit g (g.nodes.length + 1) n.name acc.1 [] acc.2)
    (([], []) : List String × List (List String))).2

/-- Lexicographic strict order on character lists via code points. -/
def strLtAux : List Char → List Char → Bool
  | [], [] => false
  | [], _ :: _ => true
  | _ :: _, [] => false
  | a :: as, b :: bs =>
      if a.toNat < b.toNat then true
      else if b.toNat < a.toNat then false
      else strLtAux as bs

/-- Lexicographic strict order on strings via code points. -/
def strLt (a b : String) : Bool := strLtAux a.data b.data

/-- Rotate a list so that position `i` comes first. -/
def rotateAt (xs : List String) (i : Nat) : List String :=
  xs.drop i ++ xs.take i

/-- Position of the lexicographically smallest element (first occurrence). -/
def minPosAux : List String → String → Nat → Nat → Nat
  | [], _, bestI, _ => bestI
  | x :: xs, best, bestI, i =>
      if strLt x best then minPosAux xs x i (i + 1)
      else minPosAux xs best bestI (i + 1)

/-- Modelled from the spec: canonicalization of a cycle — the rotation that
starts at the lexicographically smallest node name (§4.4). -/
def canonCycle (xs : List String) : List String :=
  match xs with
  | [] => []
  | x :: rest => rotateAt xs (minPosAux rest x 0 1)

/-- Modelled from the spec: `find_cycles()` (§4.4) — every elementary cycle
found by the depth-first traversal, with rotations of the same cycle
deduplicated via the canonical rotation.  Cycles are reported as lists of
node names (the Python code reports the nodes themselves; names are the
unique keys). -/
def find_cycles (g : DependencyGraph) : List (List String) :=
  ((findCyclesRaw g).map canonCycle).foldl insertUniq []

/-- Glob-style pattern matching over characters, the semantics of Python's
`fnmatch` as the Scanner applies it to relative paths: `*` matches any
(possibly empty) character sequence, `?` matches exactly one character, any
other pattern character matches itself. -/
def globMatchAux : Nat → List Char → List Char → Bool
  | 0, _, _ => false
  | Nat.succ fuel, ps, s =>
      match ps, s with
      | [], [] => true
      | [], _ :: _ => false
      | '*' :: ps1, [] => globMatchAux fuel ps1 []
      | '*' :: ps1, c :: cs =>
          globMatchAux fuel ps1 (c :: cs) || globMatchAux fuel ('*' :: ps1) cs
      | '?' :: ps1, _ :: cs => globMatchAux fuel ps1 cs
      | p :: ps1, c :: cs => p = c && globMatchAux fuel ps1 cs
      | _ :: _, [] => false

/-- Glob matching with enough fuel for the full match search (each step of
`globMatchAux` shortens the pattern or the candidate). -/
def globMatch (ps s : List Char) : Bool :=
  globMatchAux (ps.length + s.length + 1) ps s

/-- Modelled from the spec: the Scanner's built-in default exclusion set —
virtual-environment directories, dependency-manager caches, version-control
directories, and similar (§4.1); a path is default-excluded when one of its
directory components is in the set. -/
def defaultExcludeDirs : List String :=
  ["venv", ".venv", "env", "node_modules", ".git", "__pycache__",
   ".tox", ".mypy_cache", ".pytest_cache", "build", "dist"]

/-- Whether a relative path falls under a default-excluded directory. -/
def matchesDefaultExcludes (rel : String) : Bool :=
  (splitChar '/' rel).any (fun part => defaultExcludeDirs.contains part)

/-- Insertion into a lexicographically sorted list of strings. -/
def insertSorted (x : String) : List String → List String
  | [] => [x]
  | y :: ys => if strLt x y then x :: y :: ys else y :: insertSorted x ys

/-- Lexicographic sort of a list of strings (the Scanner's reproducible
output order). -/
def sortStrings (xs : List String) : List String :=
  xs.foldr insertSorted []

/-- Modelled from the spec: `Project.get_python_files(exclude_patterns,
include_defaults)` (§4.1, `parsing/project.py`).  The filesystem under the
project root is embedded as the list of file paths relative to the root.
The result keeps exactly the files that carry the recognized source
extension, match no user-supplied glob pattern, and — when
`include_defaults` is true — are not under a default-excluded directory;
output order is lexicographic (reproducible). -/
def get_python_files (entries : List String) (exclude_patterns : List String)
    (include_defaults : Bool) : List String :=
  (sortStrings entries).filter (fun p =>
    decide (p.data.drop (p.data.length - 3) = ['.', 'p', 'y']) &&
    (exclude_patterns.all (fun pat => !globMatch pat.data p.data)) &&
    (if include_defaults then !matchesDefaultExcludes p else true))

/-- Python `repr` of a string value (quotes around the text; the attribute
values handled here contain no quote or backslash characters to escape). -/
def pyStrRepr (s : String) : String := "'" ++ s ++ "'"

/-- Python `repr` of a `pathlib.Path` value on a POSIX system. -/
def pyPathRepr (p : String) : String := "PosixPath(" ++ pyStrRepr p ++ ")"

/-- Python `repr` of a bool. -/
def pyBoolRepr (b : Bool) : String := if b then "True" else "False"

/-- Joining components with a separator string. -/
def joinSep (sep : String) : List String → String
  | [] => ""
  | [x] => x
  | x :: y :: rest => x ++ sep ++ joinSep sep (y :: rest)

/-- Python `repr` of a list of strings. -/
def pyListRepr (xs : List String) : String :=
  "[" ++ joinSep ", " (xs.map (fun s => pyStrRepr s)) ++ "]"

/-- The `Config` class of `src/depgraph/config.py`: attribute record.
`Path` attributes are embedded as their path strings. -/
structure Config where
  project_path : String
  output_file : String
  output_format : String
  exclude_patterns : List String
  show_third_party : Bool
  show_stdlib : Bool
deriving DecidableEq, Repr

/-- `Config.__init__` of `src/depgraph/config.py`: the Python defaults are
`output_format="png"`, `exclude_patterns=None`, `show_third_party=True`,
`show_stdlib=True`; an omitted argument is embedded as passing the default
value (`none` for the `None` default).  `exclude_patterns` becomes `[]`
when `None` is passed. -/
def Config.make (project_path output_file : String) (output_format : String)
    (exclude_patterns : Option (List String))
    (show_third_party show_stdlib : Bool) : Config :=
  ⟨project_path, output_file, output_format, exclude_patterns.getD [],
   show_third_party, show_stdlib⟩

/-- `Config.__repr__` of `src/depgraph/config.py`
(`self.__class__.__name__` is `"Config"`). -/
def Config.reprStr (c : Config) : String :=
  "Config(" ++
  "project_path=" ++ pyPathRepr c.project_path ++ ", " ++
  "output_file=" ++ pyPathRepr c.output_file ++ ", " ++
  "output_format=" ++ pyStrRepr c.output_format ++ ", " ++
  "exclude_patterns=" ++ pyListRepr c.exclude_patterns ++ ", " ++
  "show_third_party=" ++ pyBoolRepr c.show_third_party ++ ", " ++
  "show_stdlib=" ++ pyBoolRepr c.show_stdlib ++
  ")"

/-- The `Config` class of `src/depgraph/cli.py`: attribute record. -/
structure CliConfig where
  project_path : String
  output_file : String
  output_format : String
  exclude_patterns : List String
  show_third_party : Bool
  show_stdlib : Bool
deriving DecidableEq, Repr

/-- `Config.__init__` of `src/depgraph/cli.py`: same signature and defaults
as the class in `config.py`. -/
def CliConfig.make (project_path output_file : String) (output_format : String)
    (exclude_patterns : Option (List String))
    (show_third_party show_stdlib : Bool) : CliConfig :=
  ⟨project_path, output_file, output_format, exclude_patterns.getD [],
   show_third_party, show_stdlib⟩

/-- `Config.__repr__` of `src/depgraph/cli.py`
(`self.__class__.__name__` is `"Config"` there too). -/
def CliConfig.reprStr (c : CliConfig) : String :=
  "Config(" ++
  "project_path=" ++ pyPathRepr c.project_path ++ ", " ++
  "output_file=" ++ pyPathRepr c.output_file ++ ", " ++
  "output_format=" ++ pyStrRepr c.output_format ++ ", " ++
  "exclude_patterns=" ++ pyListRepr c.exclude_patterns ++ ", " ++
  "show_third_party=" ++ pyBoolRepr c.show_third_party ++ ", " ++
  "show_stdlib=" ++ pyBoolRepr c.show_stdlib ++
  ")"

/-- `GraphvizVisualizer.render` of `src/depgraph/rendering/visualizers.py`,
node loop (lines 70-72): `for node in graph.nodes.values():
self._add_node(dot, node, is_in_cycle)` — every node of the mapping is drawn;
the config argument is received but its `show_third_party` / `show_stdlib`
toggles are never consulted when selecting nodes. -/
def renderedNodeNames (g : DependencyGraph) (c : Config) : List String :=
  (fun _ => g.nodes.map (fun n => n.name)) c

/-- `GraphvizVisualizer.render`, edge loop (lines 74-79): for every node and
every dependency, an edge is drawn when the membership guard
`dependency.name in graph.nodes` holds. -/
def renderedEdges (g : DependencyGraph) (c : Config) : List (String × String) :=
  (fun _ => g.nodes.foldl (fun acc n =>
    acc ++ (n.dependencies.filter (fun d => (nodeNames g).contains d)).map
      (fun d => (n.name, d))) []) c

/-- Character-wise replacement, the semantics of Python `str.replace` for a
single-character pattern and replacement. -/
def replaceChar (old new : Char) (s : List Char) : List Char :=
  s.map (fun c => if c = old then new else c)

/-- `GraphvizVisualizer._escape_node_name` (visualizers.py lines 177-187):
`name.replace('.', '_').replace('-', '_')`; both patterns are single
characters, so each `str.replace` is a character-wise map over the name. -/
def escape_node_name (s : List Char) : List Char :=
  replaceChar '-' '_' (replaceChar '.' '_' s)

/-- The six insertion orders of three items (used to vary which node the
depth-first traversal starts from). -/
def orders3 {α : Type} (a b c : α) : List (List α) :=
  [[a, b, c], [a, c, b], [b, a, c], [b, c, a], [c, a, b], [c, b, a]]

/-- `pkg/a.py` containing `from . import b`
(`tests/test_dependency_graph.py`). -/
def cycFileA : SourceFile := ⟨"pkg/a.py", [ImportStmt.impFrom none 1 [("b", none)]]⟩

/-- `pkg/b.py` containing `from . import c`. -/
def cycFileB : SourceFile := ⟨"pkg/b.py", [ImportStmt.impFrom none 1 [("c", none)]]⟩

/-- `pkg/c.py` containing `from . import a`. -/
def cycFileC : SourceFile := ⟨"pkg/c.py", [ImportStmt.impFrom none 1 [("a", none)]]⟩

/-- `x/y/z.py` containing `from ..u import v`, plus the empty `x/u/v.py`
(`tests/test_dependency_graph.py`, relative-resolution test). -/
def relFiles : List SourceFile :=
  [⟨"x/y/z.py", [ImportStmt.impFrom (some "u") 2 [("v", none)]]⟩,
   ⟨"x/u/v.py", []⟩]

/-- All dependency edges of a graph, drawn without the membership guard of
`GraphvizVisualizer.render` (for comparison against `renderedEdges`). -/
def allEdges (g : DependencyGraph) : List (String × String) :=
  g.nodes.foldl (fun acc n =>
    acc ++ n.dependencies.map (fun d => (n.name, d))) []

/-- A graph holding one THIRD_PARTY and one STDLIB node (concrete input for
the visualizer toggles). -/
def togglesGraph : DependencyGraph :=
  ⟨[⟨"requests", ModuleType.THIRD_PARTY, []⟩,
    ⟨"os", ModuleType.STDLIB, []⟩]⟩

/-- A config asking the visualizer to hide third-party and stdlib nodes. -/
def togglesOffConfig : Config :=
  Config.make "/proj" "/proj/out.png" "png" none false false

/-- The multiplicity of `x` in a list (Python set semantics give at most
one). -/
def countIn (xs : List String) (x : String) : Nat :=
  (xs.filter (fun y => y = x)).length

theorem countDots_zero_of_head (l : List Char) (h : l.head? ≠ some '.') :
    countDots l = 0 := by
  cases l with
  | nil => rfl
  | cons c cs =>
      simp only [List.head?] at h
      simp only [countDots]
      rw [if_neg]
      intro hc
      exact h (by rw [hc])

theorem countDots_replicate_append (lvl : Nat) (l : List Char) :
    countDots (List.replicate lvl '.' ++ l) = lvl + countDots l := by
  induction lvl with
  | zero => simp
  | succ n ih =>
      rw [List.replicate_succ, List.cons_append]
      show (if ('.' : Char) = '.' then countDots (List.replicate n '.' ++ l) + 1 else 0)
        = (n + 1) + countDots l
      rw [if_pos rfl, ih]
      omega

theorem resolve_rel (lvl : Nat) (path importer : String)
    (h1 : 1 ≤ lvl)
    (h2 : lvl < (splitChar '.' importer).length)
    (h3 : path.data.head? ≠ some '.') :
    resolve (dotsStr lvl ++ path) importer
      = some (joinWith '.'
          ((splitChar '.' importer).take ((splitChar '.' importer).length - lvl)
            ++ splitDotted path)) := by
  have hdata : (dotsStr lvl ++ path).data = List.replicate lvl '.' ++ path.data := rfl
  have hcount : countDots (dotsStr lvl ++ path).data = lvl := by
    rw [hdata, countDots_replicate_append, countDots_zero_of_head _ h3, Nat.add_zero]
  have hdrop : (dotsStr lvl ++ path).data.drop lvl = path.data := by
    rw [hdata]
    have hx := List.drop_left (List.replicate lvl '.') path.data
    rwa [List.length_replicate] at hx
  unfold resolve
  rw [hcount]
  rw [if_neg (by omega)]
  rw [hdrop]
  rw [if_neg (by omega)]

theorem nodeNames_addDependency (g : DependencyGraph) (s t : String) :
    nodeNames (addDependency g s t) = nodeNames g := by
  unfold nodeNames addDependency
  simp only [List.map_map]
  apply List.map_congr_left
  intro n _
  by_cases h1 : n.name = s
  · by_cases h2 : t ∈ n.dependencies <;> simp [Function.comp, h1, h2]
  · simp [Function.comp, h1]

theorem mem_nodeNames_addNode (g : DependencyGraph) (nm : String)
    (mt : ModuleType) (x : String) (h : x ∈ nodeNames g) :
    x ∈ nodeNames (addNode g nm mt) := by
  unfold addNode
  split
  · exact h
  · simp only [nodeNames, List.map_append, List.mem_append]
    left
    exact h

theorem self_mem_nodeNames_addNode (g : DependencyGraph) (nm : String)
    (mt : ModuleType) : nm ∈ nodeNames (addNode g nm mt) := by
  unfold addNode
  split
  · next h => exact h
  · simp [nodeNames]

theorem closed_addNode (g : DependencyGraph) (nm : String) (mt : ModuleType)
    (h : ∀ n ∈ g.nodes, ∀ d ∈ n.dependencies, d ∈ nodeNames g) :
    ∀ n ∈ (addNode g nm mt).nodes, ∀ d ∈ n.dependencies,
      d ∈ nodeNames (addNode g nm mt) := by
  intro n hn d hd
  unfold addNode at hn ⊢
  by_cases hmem : nm ∈ nodeNames g
  · rw [if_pos hmem] at hn ⊢
    exact h n hn d hd
  · rw [if_neg hmem] at hn ⊢
    simp only [List.mem_append, List.mem_singleton] at hn
    cases hn with
    | inl hg =>
        simp only [nodeNames, List.map_append, List.mem_append]
        left
        exact h n hg d hd
    | inr hnew =>
        subst hnew
        simp at hd

theorem closed_addDependency (g : DependencyGraph) (s t : String)
    (ht : t ∈ nodeNames g)
    (h : ∀ n ∈ g.nodes, ∀ d ∈ n.dependencies, d ∈ nodeNames g) :
    ∀ n ∈ (addDependency g s t).nodes, ∀ d ∈ n.dependencies,
      d ∈ nodeNames (addDependency g s t) := by
  intro n hn d hd
  rw [nodeNames_addDependency]
  unfold addDependency at hn
  simp only [List.mem_map] at hn
  obtain ⟨m, hm, hfm⟩ := hn
  by_cases h1 : m.name = s
  · by_cases h2 : t ∈ m.dependencies
    · rw [if_pos h1, if_pos h2] at hfm
      subst hfm
      exact h m hm d hd
    · rw [if_pos h1, if_neg h2] at hfm
      subst hfm
      simp only [List.mem_append, List.mem_singleton] at hd
      cases hd with
      | inl hold => exact h m hm d hold
      | inr hnew => subst hnew; exact ht
  · rw [if_neg h1] at hfm
    subst hfm
    exact h m hm d hd

theorem closed_processImport (ln : List String) (sn : String)
    (g : DependencyGraph) (raw : String)
    (h : ∀ n ∈ g.nodes, ∀ d ∈ n.dependencies, d ∈ nodeNames g) :
    ∀ n ∈ (processImport ln sn g raw).nodes, ∀ d ∈ n.dependencies,
      d ∈ nodeNames (processImport ln sn g raw) := by
  unfold processImport
  split
  · exact h
  · next tgt _ =>
      exact closed_addDependency _ sn tgt
        (self_mem_nodeNames_addNode g tgt (classify ln tgt))
        (closed_addNode g tgt (classify ln tgt) h)

theorem closed_foldl_processImport (ln : List String) (sn : String)
    (raws : List String) :
    ∀ (g : DependencyGraph),
      (∀ n ∈ g.nodes, ∀ d ∈ n.dependencies, d ∈ nodeNames g) →
      ∀ n ∈ (raws.foldl (processImport ln sn) g).nodes, ∀ d ∈ n.dependencies,
        d ∈ nodeNames (raws.foldl (processImport ln sn) g) := by
  induction raws with
  | nil => intro g h; exact h
  | cons r rs ih =>
      intro g h
      exact ih (processImport ln sn g r) (closed_processImport ln sn g r h)

theorem closed_processFile (ln : List String) (g : DependencyGraph)
    (f : SourceFile)
    (h : ∀ n ∈ g.nodes, ∀ d ∈ n.dependencies, d ∈ nodeNames g) :
    ∀ n ∈ (processFile ln g f).nodes, ∀ d ∈ n.dependencies,
      d ∈ nodeNames (processFile ln g f) := by
  unfold processFile
  exact closed_foldl_processImport ln (module_name_for f.rel)
    (get_imports_from_file f.stmts)
    (addNode g (module_name_for f.rel) ModuleType.LOCAL)
    (closed_addNode g (module_name_for f.rel) ModuleType.LOCAL h)

theorem closed_foldl_processFile (ln : List String) (fs : List SourceFile) :
    ∀ (g : DependencyGraph),
      (∀ n ∈ g.nodes, ∀ d ∈ n.dependencies, d ∈ nodeNames g) →
      ∀ n ∈ (fs.foldl (processFile ln) g).nodes, ∀ d ∈ n.dependencies,
        d ∈ nodeNames (fs.foldl (processFile ln) g) := by
  induction fs with
  | nil => intro g h; exact h
  | cons f fs1 ih =>
      intro g h
      exact ih (processFile ln g f) (closed_processFile ln g f h)

theorem closed_buildGraph (files : List SourceFile) :
    ∀ n ∈ (buildGraph files).nodes, ∀ d ∈ n.dependencies,
      d ∈ nodeNames (buildGraph files) := by
  unfold buildGraph
  exact closed_foldl_processFile _ files ⟨[]⟩ (by intro n hn; simp at hn)

theorem contains_true_of_mem {l : List String} {a : String} (h : a ∈ l) :
    l.contains a = true :=
  List.elem_eq_true_of_mem h

theorem renderedEdges_of_closed (g : DependencyGraph) (c : Config)
    (h : ∀ n ∈ g.nodes, ∀ d ∈ n.dependencies, d ∈ nodeNames g) :
    renderedEdges g c = allEdges g := by
  unfold renderedEdges allEdges
  show g.nodes.foldl _ [] = g.nodes.foldl _ []
  have hgen : ∀ (l : List ModuleNode),
      (∀ n ∈ l, ∀ d ∈ n.dependencies, d ∈ nodeNames g) →
      ∀ (acc : List (String × String)),
      l.foldl (fun acc n =>
        acc ++ (n.dependencies.filter (fun d => (nodeNames g).contains d)).map
          (fun d => (n.name, d))) acc
        = l.foldl (fun acc n =>
            acc ++ n.dependencies.map (fun d => (n.name, d))) acc := by
    intro l hl
    induction l with
    | nil => intro acc; rfl
    | cons n ns ih =>
        intro acc
        have hfilter : n.dependencies.filter (fun d => (nodeNames g).contains d)
            = n.dependencies := by
          apply List.filter_eq_self.mpr
          intro d hd
          exact contains_true_of_mem (hl n (by simp) d hd)
        simp only [List.foldl_cons, hfilter]
        exact ih (fun m hm d hd => hl m (by simp [hm]) d hd) _
  exact hgen g.nodes h []

/-- Claim C1: for the dependency graph built from `pkg/a.py` importing `b`,
`pkg/b.py` importing `c` and `pkg/c.py` importing `a` (the 3-node cycle
pkg.a→pkg.b→pkg.c→pkg.a), `find_cycles()` returns exactly one cycle, whose
node set is {pkg.a, pkg.b, pkg.c}, for every insertion order of the three
files — hence regardless of which node the depth-first traversal starts
from; rotations are deduplicated by reporting the rotation that starts at
the lexicographically smallest node name, `pkg.a`. -/
theorem claim_C1 : ∀ fs ∈ orders3 cycFileA cycFileB cycFileC,
    find_cycles (buildGraph fs) = [["pkg.a", "pkg.b", "pkg.c"]] := by
  decide

/-- Witness for C1 at the insertion order pkg/b.py, pkg/c.py, pkg/a.py
(traversal starts at pkg.b). -/
theorem claim_C1_witness :
    find_cycles (buildGraph [cycFileB, cycFileC, cycFileA])
      = [["pkg.a", "pkg.b", "pkg.c"]] :=
  claim_C1 [cycFileB, cycFileC, cycFileA] (by decide)

/-- Claim C2: for every relative import of level N ≥ 1, `resolve` strips the
last N dotted components from the importing module's name and appends the
raw path if non-empty (first conjunct, for any level, path and importer with
enough components); in particular the level-2 import `from ..u import v`
inside module x.y.z resolves to x.u.v, and the graph built from `x/y/z.py`
(`from ..u import v`) and the empty `x/u/v.py` contains node x.y.z with a
dependency edge to node x.u.v. -/
theorem claim_C2 :
    (∀ (lvl : Nat) (path importer : String),
        1 ≤ lvl →
        lvl < (splitChar '.' importer).length →
        path.data.head? ≠ some '.' →
        resolve (dotsStr lvl ++ path) importer
          = some (joinWith '.'
              ((splitChar '.' importer).take
                  ((splitChar '.' importer).length - lvl)
                ++ splitDotted path))) ∧
    resolve "..u.v" "x.y.z" = some "x.u.v" ∧
    get_imports_from_file [ImportStmt.impFrom (some "u") 2 [("v", none)]]
      = ["..u.v"] ∧
    "x.y.z" ∈ nodeNames (buildGraph relFiles) ∧
    "x.u.v" ∈ nodeNames (buildGraph relFiles) ∧
    (getNode (buildGraph relFiles) "x.y.z").map ModuleNode.dependencies
      = some ["x.u.v"] := by
  exact ⟨resolve_rel, by decide, by decide, by decide, by decide, by decide⟩

/-- Witness for C2's general conjunct at level 2, path "u.v", importing
module "x.y.z". -/
theorem claim_C2_witness :
    resolve (dotsStr 2 ++ "u.v") "x.y.z"
      = some (joinWith '.'
          ((splitChar '.' "x.y.z").take ((splitChar '.' "x.y.z").length - 2)
            ++ splitDotted "u.v")) :=
  claim_C2.1 2 "u.v" "x.y.z" (by decide) (by decide) (by decide)

/-- Claim C3: for absolute imports the Extractor yields the real imported
module path, aliases resolved back and members folded in: `import a.b.c`
and `import a.b.c as x` each yield `a.b.c` exactly once (also when both
appear in one file), and `from a.b import c as x` yields `a.b.c`; this
holds for the `depgraph` Extractor pinned by `tests/test_ast_parser.py` and
for the `depcycle` one alike. -/
theorem claim_C3 :
    (depgraph_get_imports [ImportStmt.imp "a.b.c" none] = ["a.b.c"] ∧
     depgraph_get_imports [ImportStmt.imp "a.b.c" (some "x")] = ["a.b.c"] ∧
     depgraph_get_imports [ImportStmt.impFrom (some "a.b") 0 [("c", some "x")]]
       = ["a.b.c"] ∧
     countIn (depgraph_get_imports
       [ImportStmt.imp "a.b.c" none, ImportStmt.imp "a.b.c" (some "x")])
       "a.b.c" = 1) ∧
    (get_imports_from_file [ImportStmt.imp "a.b.c" none] = ["a.b.c"] ∧
     get_imports_from_file [ImportStmt.imp "a.b.c" (some "x")] = ["a.b.c"] ∧
     get_imports_from_file [ImportStmt.impFrom (some "a.b") 0 [("c", some "x")]]
       = ["a.b.c"] ∧
     countIn (get_imports_from_file
       [ImportStmt.imp "a.b.c" none, ImportStmt.imp "a.b.c" (some "x")])
       "a.b.c" = 1) := by
  decide

/-- Counterexample for C4: on `from .pkg import submod` the Extractor's
output set is exactly {".pkg"} — the reference carries level 1 and trailing
path "pkg", and the folded form ".pkg.submod" claimed (level 1, path
"pkg.submod") is not among the yielded references, as
`tests/test_ast_parser.py` pins (`assert ".pkg" in imports`). -/
theorem claim_C4_counterexample :
    depgraph_get_imports [ImportStmt.impFrom (some "pkg") 1 [("submod", none)]]
      = [".pkg"] ∧
    ((depgraph_get_imports
        [ImportStmt.impFrom (some "pkg") 1 [("submod", none)]]).contains
      ".pkg.submod") = false ∧
    (("pkg" : String) == "pkg.submod") = false := by
  decide

/-- Claim C4 (amended): for the statement `from .pkg import submod`, the
Import Extractor yields a relative reference carrying relative level 1 and
trailing path `pkg` — the written module path, the imported member name not
folded in — which the Resolver then anchors against the importing module's
name (from importing module top.mod it resolves to top.pkg). -/
theorem claim_C4 :
    depgraph_get_imports [ImportStmt.impFrom (some "pkg") 1 [("submod", none)]]
      = [".pkg"] ∧
    countDots ".pkg".data = 1 ∧
    String.mk (".pkg".data.drop 1) = "pkg" ∧
    resolve ".pkg" "top.mod" = some "top.pkg" := by
  decide

/-- Claim C5: for a root containing pkg/a.py, pkg/b.py, venv/fake.py and
node_modules/noop.py, `get_python_files` with no extra exclusion patterns
and defaults enabled returns exactly {pkg/a.py, pkg/b.py}; with
include_defaults=false the default-excluded files (among them the venv
file) are also returned; a user-supplied glob pattern "pkg/b.py"
additionally removes the matching file. -/
theorem claim_C5 :
    get_python_files
        ["pkg/a.py", "pkg/b.py", "venv/fake.py", "node_modules/noop.py"]
        [] true
      = ["pkg/a.py", "pkg/b.py"] ∧
    get_python_files
        ["pkg/a.py", "pkg/b.py", "venv/fake.py", "node_modules/noop.py"]
        [] false
      = ["node_modules/noop.py", "pkg/a.py", "pkg/b.py", "venv/fake.py"] ∧
    get_python_files
        ["pkg/a.py", "pkg/b.py", "venv/fake.py", "node_modules/noop.py"]
        ["pkg/b.py"] true
      = ["pkg/a.py"] := by
  decide

/-- Claim C6: in every graph produced by a completed build pass, every
dependency edge's target name exists as a key of the node mapping (no
dangling references), and consequently the membership guard
`if dependency.name in graph.nodes` of `GraphvizVisualizer.render` filters
nothing out: the guarded edge list equals the unguarded one. -/
theorem claim_C6 : ∀ (files : List SourceFile) (c : Config),
    (∀ n ∈ (buildGraph files).nodes, ∀ d ∈ n.dependencies,
        d ∈ nodeNames (buildGraph files)) ∧
    renderedEdges (buildGraph files) c = allEdges (buildGraph files) := by
  intro files c
  exact ⟨closed_buildGraph files,
         renderedEdges_of_closed (buildGraph files) c (closed_buildGraph files)⟩

/-- Witness for C6 at the two-file relative-import project: the edge target
x.u.v is a key of the built graph, and the guard filters nothing. -/
theorem claim_C6_witness :
    "x.u.v" ∈ nodeNames (buildGraph relFiles) ∧
    renderedEdges (buildGraph relFiles) togglesOffConfig
      = allEdges (buildGraph relFiles) :=
  ⟨(claim_C6 relFiles togglesOffConfig).1
      ⟨"x.y.z", ModuleType.LOCAL, ["x.u.v"]⟩ (by decide) "x.u.v" (by decide),
   (claim_C6 relFiles togglesOffConfig).2⟩

/-- Claim C7: graph building is deterministic — two build passes over
identical input yield graphs with identical node sets and edge sets (in
this pure embedding, equal graphs) — and adding an edge that already exists
between the same source and target leaves the graph unchanged:
re-applying `addDependency` with the same endpoints is the identity on the
result of the first application, so no duplicate edges arise. -/
theorem claim_C7 :
    (∀ (files1 files2 : List SourceFile), files1 = files2 →
        nodeNames (buildGraph files1) = nodeNames (buildGraph files2) ∧
        allEdges (buildGraph files1) = allEdges (buildGraph files2) ∧
        buildGraph files1 = buildGraph files2) ∧
    (∀ (g : DependencyGraph) (s t : String),
        addDependency (addDependency g s t) s t = addDependency g s t) := by
  constructor
  · intro files1 files2 h
    subst h
    exact ⟨rfl, rfl, rfl⟩
  · intro g s t
    unfold addDependency
    simp only [List.map_map]
    congr 1
    apply List.map_congr_left
    intro n _
    by_cases h1 : n.name = s
    · by_cases h2 : t ∈ n.dependencies
      · simp [Function.comp, h1, h2]
      · simp [Function.comp, h1, h2]
    · simp [Function.comp, h1]

/-- Witness for C7 at the two-file relative-import project and the edge
x.y.z → x.u.v that the build already recorded. -/
theorem claim_C7_witness :
    (nodeNames (buildGraph relFiles) = nodeNames (buildGraph relFiles) ∧
     allEdges (buildGraph relFiles) = allEdges (buildGraph relFiles) ∧
     buildGraph relFiles = buildGraph relFiles) ∧
    addDependency (addDependency (buildGraph relFiles) "x.y.z" "x.u.v")
        "x.y.z" "x.u.v"
      = addDependency (buildGraph relFiles) "x.y.z" "x.u.v" :=
  ⟨claim_C7.1 relFiles relFiles rfl,
   claim_C7.2 (buildGraph relFiles) "x.y.z" "x.u.v"⟩

/-- Claim C8: the claim states that the Visualizer applies the
show_third_party / show_stdlib toggles when deciding what to draw.  The
code does not: `GraphvizVisualizer.render` draws every node of
`graph.nodes` without consulting the config, so with both toggles false a
THIRD_PARTY node ("requests") and a STDLIB node ("os") are still
rendered — the code contradicts the spec and `config.py`'s own attribute
documentation. -/
theorem claim_C8 :
    togglesOffConfig.show_third_party = false ∧
    togglesOffConfig.show_stdlib = false ∧
    (getNode togglesGraph "requests").map ModuleNode.module_type
      = some ModuleType.THIRD_PARTY ∧
    (getNode togglesGraph "os").map ModuleNode.module_type
      = some ModuleType.STDLIB ∧
    "requests" ∈ renderedNodeNames togglesGraph togglesOffConfig ∧
    "os" ∈ renderedNodeNames togglesGraph togglesOffConfig := by
  decide

/-- Claim C9: the Config class of cli.py and the Config class of config.py
are extensionally equal: for every argument tuple (including
exclude_patterns=None, which becomes []) the constructed objects have
identical attribute values and identical __repr__ strings (both classes
print under the name "Config"). -/
theorem claim_C9 : ∀ (pp outf fmt : String) (ep : Option (List String))
    (sp ss : Bool),
    (CliConfig.make pp outf fmt ep sp ss).project_path
        = (Config.make pp outf fmt ep sp ss).project_path ∧
    (CliConfig.make pp outf fmt ep sp ss).output_file
        = (Config.make pp outf fmt ep sp ss).output_file ∧
    (CliConfig.make pp outf fmt ep sp ss).output_format
        = (Config.make pp outf fmt ep sp ss).output_format ∧
    (CliConfig.make pp outf fmt ep sp ss).exclude_patterns
        = (Config.make pp outf fmt ep sp ss).exclude_patterns ∧
    (CliConfig.make pp outf fmt ep sp ss).show_third_party
        = (Config.make pp outf fmt ep sp ss).show_third_party ∧
    (CliConfig.make pp outf fmt ep sp ss).show_stdlib
        = (Config.make pp outf fmt ep sp ss).show_stdlib ∧
    CliConfig.reprStr (CliConfig.make pp outf fmt ep sp ss)
        = Config.reprStr (Config.make pp outf fmt ep sp ss) ∧
    (CliConfig.make pp outf fmt none sp ss).exclude_patterns = [] ∧
    (Config.make pp outf fmt none sp ss).exclude_patterns = [] := by
  intro pp outf fmt ep sp ss
  exact ⟨rfl, rfl, rfl, rfl, rfl, rfl, rfl, rfl, rfl⟩

/-- Claim C10: `_escape_node_name` maps every module name to a string
containing neither '.' nor '-' (each replaced by '_'), and it is not
injective: the distinct names "a.b" and "a_b" map to the same escaped
identifier "a_b", so two distinct modules can collide into one rendered
Graphviz node. -/
theorem claim_C10 :
    (∀ s : List Char, (escape_node_name s).contains '.' = false ∧
        (escape_node_name s).contains '-' = false) ∧
    escape_node_name "a.b".data = escape_node_name "a_b".data ∧
    escape_node_name "a.b".data = "a_b".data ∧
    (("a.b" : String) == "a_b") = false := by
  refine ⟨?_, by decide, by decide, by decide⟩
  intro s
  induction s with
  | nil => exact ⟨rfl, rfl⟩
  | cons c cs ih =>
    have hstep : escape_node_name (c :: cs)
        = (if (if c = '.' then '_' else c) = '-' then '_'
           else (if c = '.' then '_' else c)) :: escape_node_name cs := rfl
    rw [hstep]
    constructor
    · rw [List.contains_cons]
      rw [ih.1]
      by_cases h1 : c = '.'
      · simp [h1]
      · by_cases h2 : c = '-'
        · simp [h1, h2]
        · simp [h1, h2, Ne.symm h1]
    · rw [List.contains_cons]
      rw [ih.2]
      by_cases h1 : c = '.'
      · simp [h1]
      · by_cases h2 : c = '-'
        · simp [h1, h2]
        · simp [h1, h2, Ne.symm h2]
